import Mathlib

/-
  Verification development for the node-html2img-render-server repository.

  The definitions below are a shallow embedding of the render request
  lifecycle: payload validation (src/middleware/security.js, here from the
  unnamed middleware source), the renderer service (src/services/renderer.js),
  the asset injector (src/services/assets.js) and the render route
  (src/routes/render.js).  External browser-automation operations (launch,
  newContext, newPage, setContent, waitForSelector, element lookup,
  screenshot, version query) are modelled by an environment record that fixes
  the outcome of each awaited call; the renderer is a pure function of the
  request parameters, that environment and the browser-singleton state.
-/

namespace Html2Img

/-- JavaScript runtime values as far as the validation middleware needs them
(viewport fields can be any JSON value; typeof and truthiness checks are
modelled on this type).  NaN is not modelled. -/
inductive JsVal where
  | undefined
  | null
  | bool (b : Bool)
  | num (q : ℚ)
  | str (s : String)
deriving DecidableEq, Repr

/-- JavaScript truthiness for the modelled values. -/
def JsVal.truthy : JsVal → Bool
  | .undefined => false
  | .null => false
  | .bool b => b
  | .num q => !(q == 0)
  | .str s => !(s.isEmpty)

/-- JavaScript a || b on modelled values: the left operand when truthy,
otherwise the right one. -/
def jsOr (a b : JsVal) : JsVal :=
  if a.truthy then a else b

/-- A viewport object as supplied in the request body: its entries in
insertion order (Object.entries order matters for the response headers). -/
structure Viewport where
  entries : List (String × JsVal)
deriving DecidableEq, Repr

/-- Property access viewport.k: the first entry with the given key, or
undefined when absent. -/
def Viewport.get (v : Viewport) (k : String) : JsVal :=
  (v.entries.lookup k).getD JsVal.undefined

/-- A thrown JavaScript error as observed by the route boundary: its name
(playwright timeouts carry the name TimeoutError) and message. -/
structure JsError where
  name : String
  message : String
deriving DecidableEq, Repr

/-- The ApiError class of the error middleware: a message and an HTTP
status. -/
structure ApiError where
  message : String
  status : Nat
deriving DecidableEq, Repr

/-- A bounding box as returned by elementHandle.boundingBox(). -/
structure BoundingBox where
  x : ℚ
  y : ℚ
  width : ℚ
  height : ℚ
deriving DecidableEq, Repr

/-- Options passed to browser.newContext in renderHTML. -/
structure ContextOptions where
  viewport : Viewport
  deviceScaleFactor : JsVal
  userAgent : String
deriving DecidableEq, Repr

/-- The screenshot options object assembled before page.screenshot; fullPage
is an Option because the code deletes the property when a clip box is
installed. -/
structure ScreenshotOptions where
  type : String
  fullPage : Option Bool
  omitBackground : Bool
  quality : Option ℚ
  clip : Option BoundingBox
deriving DecidableEq, Repr

/-- The metadata record built after capture, field order as in the source. -/
structure Metadata where
  renderedAt : String
  viewport : Viewport
  browserVersion : String
  renderingTime : Nat
  screenshotId : String
deriving DecidableEq, Repr

/-- A caller-supplied font entry. -/
structure Font where
  name : String
  data : String
  weight : Option String
  style : Option String
deriving DecidableEq, Repr

/-- Observable browser-automation events of one request, used to state the
resource-lifecycle invariants. -/
inductive Event where
  | contextCreated (opts : ContextOptions)
  | pageCreated
  | waitCalled (timeoutMs : Nat)
  | screenshotTaken (opts : ScreenshotOptions)
  | pageClosed
  | contextClosed
  | browserClosed
deriving DecidableEq, Repr

/-- The shared browser handle is abstract: only its identity matters. -/
abbrev Browser := Nat

/-! String utilities mirrored from the JavaScript runtime behaviour the
source relies on. -/

/-- Uppercase the first character, as in key.charAt(0).toUpperCase() +
key.slice(1) in the route's viewport-header loop. -/
def capitalizeFirst (s : String) : String :=
  match s.toList with
  | [] => s
  | c :: cs => String.mk (c.toUpper :: cs)

/-- ASCII lowercase of a name, used to compare HTTP header names, which are
case-insensitive. -/
def lowerName (s : String) : String :=
  String.mk (s.toList.map Char.toLower)

/-- Split a character list on a separator character; like JavaScript
String.split, the result always has at least one (possibly empty) group. -/
def splitChar (sep : Char) : List Char → List (List Char)
  | [] => [[]]
  | c :: cs =>
    match splitChar sep cs with
    | [] => [[]]
    | g :: gs => if c = sep then [] :: g :: gs else (c :: g) :: gs

/-- Last element of str.split(sep) — the JavaScript split-then-pop idiom used
for URL trailing segments and file extensions. -/
def lastSplitSegment (sep : Char) (s : String) : String :=
  String.mk (((splitChar sep s.toList).getLast?).getD [])

/-- Character of the standard base64 alphabet at the given index. -/
def b64Char (n : Nat) : Char :=
  if n < 26 then Char.ofNat (65 + n)
  else if n < 52 then Char.ofNat (97 + (n - 26))
  else if n < 62 then Char.ofNat (48 + (n - 52))
  else if n = 62 then '+' else '/'

/-- Standard base64 encoding of a byte list (Buffer.toString base64). -/
def b64EncodeList : List Nat → List Char
  | [] => []
  | [a] =>
    let n := (a % 256) * 65536
    [b64Char (n / 262144), b64Char ((n / 4096) % 64), '=', '=']
  | [a, b] =>
    let n := (a % 256) * 65536 + (b % 256) * 256
    [b64Char (n / 262144), b64Char ((n / 4096) % 64), b64Char ((n / 64) % 64), '=']
  | a :: b :: c :: rest =>
    let n := (a % 256) * 65536 + (b % 256) * 256 + (c % 256)
    b64Char (n / 262144) :: b64Char ((n / 4096) % 64) :: b64Char ((n / 64) % 64) ::
      b64Char (n % 64) :: b64EncodeList rest

/-- Base64 encoding as a String, used for the JSON response envelope. -/
def base64Encode (bytes : List Nat) : String := String.mk (b64EncodeList bytes)

/-- Value of a base64 alphabet character, none for characters outside the
alphabet (Buffer.from base64 skips those leniently). -/
def b64Val (c : Char) : Option Nat :=
  if 65 ≤ c.toNat ∧ c.toNat ≤ 90 then some (c.toNat - 65)
  else if 97 ≤ c.toNat ∧ c.toNat ≤ 122 then some (c.toNat - 97 + 26)
  else if 48 ≤ c.toNat ∧ c.toNat ≤ 57 then some (c.toNat - 48 + 52)
  else if c = '+' then some 62
  else if c = '/' then some 63
  else none

/-- Decode a list of 6-bit values into bytes, four at a time; trailing
partial groups produce the bytes they determine. -/
def b64DecodeGroups : List Nat → List Nat
  | a :: b :: c :: d :: rest =>
    (a * 4 + b / 16) :: ((b % 16) * 16 + c / 4) :: ((c % 4) * 64 + d) :: b64DecodeGroups rest
  | [a, b] => [a * 4 + b / 16]
  | [a, b, c] => [a * 4 + b / 16, (b % 16) * 16 + c / 4]
  | _ => []

/-- Lenient base64 decoding (models Buffer.from(data, base64)). -/
def base64Decode (s : String) : List Nat :=
  b64DecodeGroups (s.toList.filterMap b64Val)

/-- Hexadecimal digit character (lowercase), for JSON escapes. -/
def hexDigit (n : Nat) : Char :=
  if n < 10 then Char.ofNat (48 + n) else Char.ofNat (87 + n)

/-- JSON.stringify escaping of one character. -/
def jsonEscapeChar (c : Char) : List Char :=
  if c = '"' then ['\\', '"']
  else if c = '\\' then ['\\', '\\']
  else if c = '\n' then ['\\', 'n']
  else if c = '\r' then ['\\', 'r']
  else if c = '\t' then ['\\', 't']
  else if c.toNat = 8 then ['\\', 'b']
  else if c.toNat = 12 then ['\\', 'f']
  else if c.toNat < 32 then ['\\', 'u', '0', '0', hexDigit (c.toNat / 16), hexDigit (c.toNat % 16)]
  else [c]

/-- JSON.stringify escaping of a whole string body. -/
def jsonEscape (s : String) : String :=
  String.mk (s.toList.map jsonEscapeChar).flatten

/-- A JSON string literal. -/
def jsonStr (s : String) : String := "\"" ++ jsonEscape s ++ "\""

/-- JSON serialization of a modelled JavaScript number.  Integral values
render exactly as JavaScript does; the decimal expansion of non-integral
doubles is approximated by num/den, which no claim depends on. -/
def jsonNum (q : ℚ) : String :=
  if q.den = 1 then toString q.num else toString q.num ++ "/" ++ toString q.den

/-- JSON serialization of a modelled JavaScript value in object position. -/
def jsonOfJsVal : JsVal → String
  | .undefined => "null"
  | .null => "null"
  | .bool b => if b then "true" else "false"
  | .num q => jsonNum q
  | .str s => jsonStr s

/-- JSON.stringify of a viewport object: entries in insertion order, keys
with undefined values omitted as JSON.stringify does. -/
def jsonOfViewport (v : Viewport) : String :=
  "\x7b" ++ String.intercalate ","
    ((v.entries.filter (fun e => !(e.2 == JsVal.undefined))).map
      (fun e => jsonStr e.1 ++ ":" ++ jsonOfJsVal e.2)) ++ "\x7d"

/-- JSON.stringify(metadata): the serialized metadata string embedded into
PNG output, fields in the object's insertion order. -/
def metadataJson (md : Metadata) : String :=
  "\x7b" ++ jsonStr "renderedAt" ++ ":" ++ jsonStr md.renderedAt ++ ","
    ++ jsonStr "viewport" ++ ":" ++ jsonOfViewport md.viewport ++ ","
    ++ jsonStr "browserVersion" ++ ":" ++ jsonStr md.browserVersion ++ ","
    ++ jsonStr "renderingTime" ++ ":" ++ toString md.renderingTime ++ ","
    ++ jsonStr "screenshotId" ++ ":" ++ jsonStr md.screenshotId ++ "\x7d"

/-! The malicious-pattern scan of validatePayload.  Each fixed regular
expression of the source is compiled by hand into a decidable matcher over
character lists; all literals honour the i flag via case folding. -/

/-- Case-insensitive character comparison (the regex i flag). -/
def charCI (a b : Char) : Bool := a.toLower == b.toLower

/-- Match a literal case-insensitively at the head of the input, returning
the remaining input on success. -/
def matchLitCI : List Char → List Char → Option (List Char)
  | [], rest => some rest
  | _ :: _, [] => none
  | p :: ps, c :: cs => if charCI p c then matchLitCI ps cs else none

/-- Whitespace as matched by the JavaScript regex class backslash-s. -/
def isJsWs (c : Char) : Bool :=
  c == ' ' || c == '\t' || c == '\n' || c == '\r' ||
  c.toNat == 11 || c.toNat == 12 || c.toNat == 0xa0 || c.toNat == 0x1680 ||
  (0x2000 ≤ c.toNat && c.toNat ≤ 0x200a) ||
  c.toNat == 0x2028 || c.toNat == 0x2029 || c.toNat == 0x202f ||
  c.toNat == 0x205f || c.toNat == 0x3000 || c.toNat == 0xfeff

/-- Greedily skip backslash-s-star whitespace; exact for the source's
patterns because each star is followed by a non-whitespace literal. -/
def skipWs : List Char → List Char
  | [] => []
  | c :: cs => if isJsWs c then skipWs cs else c :: cs

/-- A single or double quote, the character class of the require patterns. -/
def isQuote (c : Char) : Bool := c == Char.ofNat 39 || c == '"'

/-- Match the pattern require backslash-s-star ( backslash-s-star quote MOD
quote backslash-s-star ) at the current position. -/
def matchRequireAt (modName : List Char) (s : List Char) : Bool :=
  match matchLitCI "require".toList s with
  | none => false
  | some s1 =>
    match skipWs s1 with
    | '(' :: s2 =>
      match skipWs s2 with
      | q1 :: s3 =>
        if isQuote q1 then
          match matchLitCI modName s3 with
          | some (q2 :: s4) =>
            if isQuote q2 then
              match skipWs s4 with
              | ')' :: _ => true
              | _ => false
            else false
          | _ => false
        else false
      | [] => false
    | _ => false

/-- A character matched by the regex dot (anything but a line terminator). -/
def isDotChar (c : Char) : Bool :=
  !(c == '\n' || c == '\r' || c.toNat == 0x2028 || c.toNat == 0x2029)

/-- Match src backslash-s-star = backslash-s-star quote file:// at the
current position (the tail of the iframe pattern). -/
def matchSrcFileAt (s : List Char) : Bool :=
  match matchLitCI "src".toList s with
  | none => false
  | some s1 =>
    match skipWs s1 with
    | '=' :: s2 =>
      match skipWs s2 with
      | q :: s3 => isQuote q && (matchLitCI "file://".toList s3).isSome
      | [] => false
    | _ => false

/-- Dot-star scan: does matchSrcFileAt hold at some position reachable from
here across non-line-terminator characters only? -/
def scanDotSrcFile : List Char → Bool
  | [] => matchSrcFileAt []
  | c :: cs => matchSrcFileAt (c :: cs) || (isDotChar c && scanDotSrcFile cs)

/-- Match the iframe pattern < backslash-s-star iframe dot-star src ... at
the current position. -/
def matchIframeAt (s : List Char) : Bool :=
  match s with
  | '<' :: s1 =>
    match matchLitCI "iframe".toList (skipWs s1) with
    | some s2 => scanDotSrcFile s2
    | none => false
  | _ => false

/-- Unanchored scan: does the positional matcher succeed at any suffix? -/
def scanAll (f : List Char → Bool) : List Char → Bool
  | [] => f []
  | c :: cs => f (c :: cs) || scanAll f cs

/-- Case-insensitive substring test, for the plain-literal patterns. -/
def containsCI (needle : String) (s : List Char) : Bool :=
  scanAll (fun t => (matchLitCI needle.toList t).isSome) s

/-- The fixed malicious-pattern list of validatePayload, applied to the
combined html/javascript/css content. -/
def maliciousDetected (s : List Char) : Bool :=
  containsCI "electron" s ||
  containsCI "child_process" s ||
  scanAll (matchRequireAt "os".toList) s ||
  scanAll (matchRequireAt "fs".toList) s ||
  scanAll (matchRequireAt "path".toList) s ||
  containsCI "process.env" s ||
  containsCI "process.exit" s ||
  scanAll matchIframeAt s

/-! The asset injector (src/services/assets.js). -/

/-- MIME type derived from the file extension, default
application/octet-stream (getMimeType in assets.js). -/
def getMimeType (filename : String) : String :=
  let ext := (lastSplitSegment '.' filename).toLower
  if ext = "png" then "image/png"
  else if ext = "jpg" then "image/jpeg"
  else if ext = "jpeg" then "image/jpeg"
  else if ext = "gif" then "image/gif"
  else if ext = "svg" then "image/svg+xml"
  else if ext = "webp" then "image/webp"
  else if ext = "woff" then "font/woff"
  else if ext = "woff2" then "font/woff2"
  else if ext = "ttf" then "font/ttf"
  else if ext = "otf" then "font/otf"
  else if ext = "eot" then "application/vnd.ms-fontobject"
  else "application/octet-stream"

/-- Decision taken by the page.route interception callback for one request. -/
inductive RouteAction where
  | fulfilled (status : Nat) (contentType : String) (body : List Nat)
  | continued
deriving DecidableEq, Repr

/-- The route interception callback installed by addAssetsToPage: key the
trailing URL segment into the assets map; on a truthy hit fulfill with the
decoded bytes and derived MIME type (falling back to continue should fulfill
throw, modelled by fulfillOk); otherwise pass the request through. -/
def assetRouteHandler (assets : List (String × String)) (fulfillOk : Bool)
    (url : String) : RouteAction :=
  let fileName := lastSplitSegment '/' url
  match assets.lookup fileName with
  | some data =>
    if !data.isEmpty then
      if fulfillOk then
        RouteAction.fulfilled 200 (getMimeType fileName) (base64Decode data)
      else RouteAction.continued
    else RouteAction.continued
  | none => RouteAction.continued

/-- Outcomes of the awaited page operations inside addAssetsToPage. -/
structure AssetsEnv where
  routeSetup : Except JsError Unit
  addStyleTag : Except JsError Unit
  waitTimeout : Except JsError Unit

/-- Is the assets object present and non-empty (Object.keys length check)? -/
def assetsNonempty : Option (List (String × String)) → Bool
  | some l => !l.isEmpty
  | none => false

/-- Is the fonts array present and non-empty? -/
def fontsNonempty : Option (List Font) → Bool
  | some l => !l.isEmpty
  | none => false

/-- The throwing body of addAssetsToPage: set up interception when assets are
present, then inject the font-face style tag and the brief settle wait when
fonts are present; inner span errors are rethrown to the outer handler. -/
def addAssetsBody (assets : Option (List (String × String)))
    (fonts : Option (List Font)) (env : AssetsEnv) : Except JsError Unit := do
  if assetsNonempty assets then
    match env.routeSetup with
    | .error e => throw e
    | .ok _ => pure ()
  if fontsNonempty fonts then
    match env.addStyleTag with
    | .error e => throw e
    | .ok _ =>
      match env.waitTimeout with
      | .error e => throw e
      | .ok _ => pure ()

/-- addAssetsToPage: the outer catch logs any internal error and swallows it,
so the call always resolves. -/
def addAssetsToPage (assets : Option (List (String × String)))
    (fonts : Option (List Font)) (env : AssetsEnv) : Except JsError Unit :=
  match addAssetsBody assets fonts env with
  | .ok _ => Except.ok ()
  | .error _ => Except.ok ()

/-! The renderer service (src/services/renderer.js). -/

/-- An abstract PNG container: an opaque pixel payload plus the text chunks
(png.text in pngjs). -/
structure PngImage where
  pix : List Nat
  text : List (String × String)
deriving DecidableEq, Repr

/-- The pngjs synchronous codec, abstract: decoding and encoding may each
fail. -/
structure PngCodec where
  read : List Nat → Except Unit PngImage
  write : PngImage → Except Unit (List Nat)

/-- embedMetadataInImage: parse the PNG, set the metadata text chunk to the
JSON-serialized metadata, re-encode; any decode or encode error returns the
original buffer unchanged. -/
def embedMetadataInImage (codec : PngCodec) (imageBuffer : List Nat)
    (metadata : Metadata) : List Nat :=
  match codec.read imageBuffer with
  | .error _ => imageBuffer
  | .ok png =>
    match codec.write { png with text := [("metadata", metadataJson metadata)] } with
    | .error _ => imageBuffer
    | .ok out => out

/-- The renderer's final-buffer choice: embed metadata only for PNG when
requested, otherwise pass the screenshot bytes through. -/
def selectFinalBuffer (embedMeta : Bool) (format : String) (codec : PngCodec)
    (buf : List Nat) (md : Metadata) : List Nat :=
  if embedMeta && (format == "png") then embedMetadataInImage codec buf md else buf

/-- Parameters of renderHTML after the route's destructuring defaults. -/
structure RenderParams where
  html : Option String
  css : Option String
  javascript : Option String
  viewport : Viewport
  waitForSelector : Option String
  clipSelector : Option String
  assets : Option (List (String × String))
  fonts : Option (List Font)
  embedMetadata : Bool
  format : String
  quality : ℚ

/-- Environment fixing the outcome of every awaited browser operation of one
render, plus the nondeterministic metadata inputs. -/
structure RenderEnv where
  launch : Except JsError Browser
  newContext : Except JsError Unit
  newPage : Except JsError Unit
  setContent : Except JsError Unit
  assetsEnv : AssetsEnv
  wait : Except JsError Unit
  clip : Except JsError (Option (Option BoundingBox))
  screenshot : Except JsError (List Nat)
  version : Except JsError String
  codec : PngCodec
  renderedAt : String
  screenshotId : String
  renderingTime : Nat

/-- A successful render result: image bytes, metadata and content type. -/
structure RenderSuccess where
  imageBuffer : List Nat
  metadata : Metadata
  contentType : String
deriving DecidableEq, Repr

/-- Did the render resolve rather than reject? -/
def isOkE (r : Except JsError RenderSuccess) : Bool :=
  match r with
  | .ok _ => true
  | .error _ => false

/-- getBrowser: return the cached singleton, or launch and cache it; a launch
failure propagates and leaves the singleton absent. -/
def getBrowser (st : Option Browser) (launch : Except JsError Browser) :
    Except JsError Browser × Option Browser :=
  match st with
  | some b => (Except.ok b, some b)
  | none =>
    match launch with
    | .ok b => (Except.ok b, some b)
    | .error e => (Except.error e, none)

/-- Options passed to browser.newContext: the request viewport, its
deviceScaleFactor defaulted with || 1, and the fixed user agent. -/
def contextOptionsOf (p : RenderParams) : ContextOptions :=
  { viewport := p.viewport
    deviceScaleFactor := jsOr (p.viewport.get "deviceScaleFactor") (JsVal.num 1)
    userAgent := "html2img-render-server/1.0.1" }

/-- Assemble the screenshot options exactly as renderHTML does: base options
with fullPage = not clipSelector and quality only for jpeg; when a
clipSelector is present, a successful element lookup with a bounding box
installs the clip and deletes fullPage, while a missed element, a missing
box, or a lookup error leaves the options untouched. -/
def computeScreenshotOptions (format : String) (quality : ℚ)
    (clipSelector : Option String)
    (clipRes : Except JsError (Option (Option BoundingBox))) : ScreenshotOptions :=
  let base : ScreenshotOptions :=
    { type := if format = "jpeg" then "jpeg" else "png"
      fullPage := some clipSelector.isNone
      omitBackground := false
      quality := if format = "jpeg" then some quality else none
      clip := none }
  match clipSelector with
  | none => base
  | some _ =>
    match clipRes with
    | .ok (some (some box)) => { base with clip := some box, fullPage := none }
    | _ => base

/-- Result of the renderHTML try-block: outcome, which session resources got
created (and so need closing), and the observable events in order. -/
structure BodyOut where
  res : Except JsError RenderSuccess
  ctxCreated : Bool
  pageCreated : Bool
  events : List Event

/-- The tail of the renderHTML try-block, from option assembly onwards:
compute the screenshot options, capture, query the version, and build the
metadata and final buffer; ev2 are the events accumulated so far. -/
def captureFinish (p : RenderParams) (env : RenderEnv) (ev2 : List Event) : BodyOut :=
  let opts := computeScreenshotOptions p.format p.quality p.clipSelector env.clip
  let ev3 := ev2 ++ [Event.screenshotTaken opts]
  match env.screenshot with
  | .error e => ⟨Except.error e, true, true, ev3⟩
  | .ok buf =>
    match env.version with
    | .error e => ⟨Except.error e, true, true, ev3⟩
    | .ok ver =>
      let md : Metadata :=
        { renderedAt := env.renderedAt
          viewport := p.viewport
          browserVersion := ver
          renderingTime := env.renderingTime
          screenshotId := env.screenshotId }
      let finalBuf := selectFinalBuffer p.embedMetadata p.format env.codec buf md
      let ct := if p.format = "jpeg" then "image/jpeg" else "image/png"
      ⟨Except.ok ⟨finalBuf, md, ct⟩, true, true, ev3⟩

/-- The renderHTML try-block after the browser handle is obtained: create
context and page, load content, run the asset injector (whose errors are
swallowed internally), optionally await the selector with the fixed 5000 ms
timeout, then capture and finish. -/
def renderBody (p : RenderParams) (env : RenderEnv) : BodyOut :=
  match env.newContext with
  | .error e => ⟨Except.error e, false, false, []⟩
  | .ok _ =>
    let ev0 := [Event.contextCreated (contextOptionsOf p)]
    match env.newPage with
    | .error e => ⟨Except.error e, true, false, ev0⟩
    | .ok _ =>
      let ev1 := ev0 ++ [Event.pageCreated]
      match env.setContent with
      | .error e => ⟨Except.error e, true, true, ev1⟩
      | .ok _ =>
        match (if p.assets.isSome || p.fonts.isSome then
            addAssetsToPage p.assets p.fonts env.assetsEnv else Except.ok ()) with
        | .error e => ⟨Except.error e, true, true, ev1⟩
        | .ok _ =>
          match p.waitForSelector with
          | some _ =>
            match env.wait with
            | .error e => ⟨Except.error e, true, true, ev1 ++ [Event.waitCalled 5000]⟩
            | .ok _ => captureFinish p env (ev1 ++ [Event.waitCalled 5000])
          | none => captureFinish p env ev1

/-- The finally-block teardown: close the page if it was created, then the
context if it was created, in that order. -/
def cleanupEvents (pageCreated ctxCreated : Bool) : List Event :=
  (if pageCreated then [Event.pageClosed] else []) ++
    (if ctxCreated then [Event.contextClosed] else [])

/-- Full outcome of one renderHTML call: the result or error, the browser
singleton afterwards, the events of the try-block, and the teardown events
run in the finally block before the call returns. -/
structure RenderOutcome where
  result : Except JsError RenderSuccess
  browserAfter : Option Browser
  events : List Event
  cleanup : List Event

/-- renderHTML: obtain the singleton browser (launching lazily), run the
per-request body, and always run the finally teardown before returning the
result or propagating the error. -/
def renderHTML (p : RenderParams) (env : RenderEnv) (st : Option Browser) :
    RenderOutcome :=
  match getBrowser st env.launch with
  | (.error e, st') => ⟨Except.error e, st', [], []⟩
  | (.ok _, st') =>
    let b := renderBody p env
    ⟨b.res, st', b.events, cleanupEvents b.pageCreated b.ctxCreated⟩

/-- closeBrowser: idempotent shutdown of the singleton. -/
def closeBrowser (st : Option Browser) : Option Browser × List Event :=
  match st with
  | some _ => (none, [Event.browserClosed])
  | none => (none, [])

/-! The validation middleware (validatePayload in the security middleware)
and the render route (src/routes/render.js, instrumented revision). -/

/-- A parsed request body for POST /render.  The text fragments are absent
or strings; viewport field values stay JsVal because validation applies
typeof checks to them. -/
structure ReqBody where
  html : Option String
  css : Option String
  javascript : Option String
  viewport : Option Viewport
  waitForSelector : Option String
  clipSelector : Option String
  assets : Option (List (String × String))
  fonts : Option (List Font)
  responseFormat : Option String
  format : Option String
  quality : Option ℚ

/-- Truthiness of an optional string field (undefined and the empty string
are falsy). -/
def truthyOptStr : Option String → Bool
  | none => false
  | some s => !s.isEmpty

/-- A valid viewport dimension: a number in (0, 5000]. -/
def isValidDimension (v : JsVal) : Bool :=
  match v with
  | .num q => decide (0 < q) && decide (q ≤ 5000)
  | _ => false

/-- A valid device scale factor: a number in (0, 5]. -/
def isValidScale (v : JsVal) : Bool :=
  match v with
  | .num q => decide (0 < q) && decide (q ≤ 5)
  | _ => false

/-- The viewport block of validatePayload: width and height must be numbers
in (0, 5000]; deviceScaleFactor is checked against (0, 5] only when it is
truthy. -/
def viewportCheck (v : Viewport) : Option ApiError :=
  if isValidDimension (v.get "width") then
    if isValidDimension (v.get "height") then
      if (v.get "deviceScaleFactor").truthy && !isValidScale (v.get "deviceScaleFactor") then
        some ⟨"Invalid deviceScaleFactor (must be between 0-5)", 400⟩
      else none
    else some ⟨"Invalid viewport height (must be between 1-5000)", 400⟩
  else some ⟨"Invalid viewport width (must be between 1-5000)", 400⟩

/-- The content joined for the malicious scan:
[html, javascript, css].filter(Boolean).join(' '). -/
def combinedContent (b : ReqBody) : String :=
  String.intercalate " "
    (([b.html, b.javascript, b.css].filterMap id).filter (fun s => !s.isEmpty))

/-- validatePayload: require html, validate the viewport when supplied, scan
for malicious patterns, and bound the payload size; none means next() was
called with no error. -/
def validatePayload (b : ReqBody) (contentLength : Nat) : Option ApiError :=
  if !truthyOptStr b.html then some ⟨"HTML content is required", 400⟩
  else
    match (match b.viewport with | some v => viewportCheck v | none => none) with
    | some e => some e
    | none =>
      if maliciousDetected (combinedContent b).toList then
        some ⟨"Potentially malicious code detected", 400⟩
      else if contentLength > 10485760 then some ⟨"Payload too large", 413⟩
      else none

/-- The default viewport of the route's destructuring. -/
def defaultViewport : Viewport :=
  ⟨[("width", JsVal.num 1280), ("height", JsVal.num 720),
    ("deviceScaleFactor", JsVal.num 1)]⟩

/-- The renderHTML parameters the route passes: body fields with the route's
defaults, embedMetadata always true. -/
def routeParams (b : ReqBody) : RenderParams :=
  { html := b.html
    css := b.css
    javascript := b.javascript
    viewport := b.viewport.getD defaultViewport
    waitForSelector := b.waitForSelector
    clipSelector := b.clipSelector
    assets := b.assets
    fonts := b.fonts
    embedMetadata := true
    format := b.format.getD "png"
    quality := (b.quality.getD 90 : ℚ) }

/-- The route's format guard: format && !['png','jpeg'].includes(format). -/
def formatInvalid (format : String) : Bool :=
  !format.isEmpty && !(format == "png" || format == "jpeg")

/-- The route's quality guard: format === 'jpeg' && (quality < 1 ||
quality > 100). -/
def qualityInvalid (format : String) (quality : ℚ) : Bool :=
  (format == "jpeg") && decide (quality < 1 ∨ 100 < quality)

/-- HTTP responses the render route can produce: a binary image response
with mirrored metadata headers, the JSON envelope, or an error envelope
(error responses keep the status the error middleware would send). -/
inductive HttpResponse where
  | imageResp (contentType : String) (headers : List (String × JsVal)) (body : List Nat)
  | jsonOk (image : String) (contentType : String) (metadata : Metadata)
  | errResp (status : Nat) (message : String)
deriving DecidableEq, Repr

/-- HTTP status of a response. -/
def HttpResponse.statusOf : HttpResponse → Nat
  | .errResp s _ => s
  | _ => 200

/-- The metadata headers of the binary image response: the four fixed X-
headers followed by one X-Viewport- header per viewport entry with its first
letter capitalized. -/
def imageHeaders (md : Metadata) : List (String × JsVal) :=
  [("X-Screenshot-ID", JsVal.str md.screenshotId),
   ("X-Rendering-Time", JsVal.num md.renderingTime),
   ("X-Browser-Version", JsVal.str md.browserVersion),
   ("X-Rendered-At", JsVal.str md.renderedAt)] ++
    md.viewport.entries.map (fun kv => ("X-Viewport-" ++ capitalizeFirst kv.1, kv.2))

/-- Outcome of the route handler (and error middleware): the response, the
browser singleton afterwards, and the request's browser events and teardown
events. -/
structure RouteOutcome where
  response : HttpResponse
  browserAfter : Option Browser
  events : List Event
  cleanup : List Event
deriving Repr

/-- The POST /render handler after validation: check format and quality,
call renderHTML, then either answer with the JSON envelope or the binary
image with mirrored headers; a thrown TimeoutError becomes a 408 ApiError
and anything else reaches the error middleware as a 500. -/
def renderRoute (b : ReqBody) (env : RenderEnv) (st : Option Browser) :
    RouteOutcome :=
  let responseFormat := b.responseFormat.getD "image"
  let format := b.format.getD "png"
  let quality := (b.quality.getD 90 : ℚ)
  if formatInvalid format then
    ⟨HttpResponse.errResp 400 "Format must be either \"png\" or \"jpeg\"", st, [], []⟩
  else if qualityInvalid format quality then
    ⟨HttpResponse.errResp 400 "JPEG quality must be between 1 and 100", st, [], []⟩
  else
    let out := renderHTML (routeParams b) env st
    match out.result with
    | .ok r =>
      if responseFormat = "json" then
        ⟨HttpResponse.jsonOk (base64Encode r.imageBuffer) r.contentType r.metadata,
          out.browserAfter, out.events, out.cleanup⟩
      else
        ⟨HttpResponse.imageResp r.contentType (imageHeaders r.metadata) r.imageBuffer,
          out.browserAfter, out.events, out.cleanup⟩
    | .error e =>
      if e.name = "TimeoutError" then
        ⟨HttpResponse.errResp 408 "Operation timed out. Check selectors or simplify content.",
          out.browserAfter, out.events, out.cleanup⟩
      else ⟨HttpResponse.errResp 500 e.message, out.browserAfter, out.events, out.cleanup⟩

/-- The full pipeline for one authenticated request: validatePayload runs
before the route handler, so a validation failure answers without touching
any browser resource. -/
def handleRender (b : ReqBody) (contentLength : Nat) (env : RenderEnv)
    (st : Option Browser) : RouteOutcome :=
  match validatePayload b contentLength with
  | some e => ⟨HttpResponse.errResp e.status e.message, st, [], []⟩
  | none => renderRoute b env st

/-! Concrete fixtures used to evaluate the pipeline at specific inputs. -/

/-- A pngjs codec whose decode always fails (exercises the embed fallback). -/
def codecFailRead : PngCodec :=
  ⟨fun _ => Except.error (), fun _ => Except.error ()⟩

/-- A pngjs codec that decodes to a container with the bytes as payload and
re-encodes by prefixing a marker byte. -/
def codecOk : PngCodec :=
  ⟨fun bs => Except.ok ⟨bs, []⟩, fun img => Except.ok (0 :: img.pix)⟩

/-- An asset-injection environment where every page operation succeeds. -/
def assetsEnvOk : AssetsEnv := ⟨Except.ok (), Except.ok (), Except.ok ()⟩

/-- An asset-injection environment where every page operation throws. -/
def assetsEnvBad : AssetsEnv :=
  ⟨Except.error ⟨"Error", "route interception failed"⟩,
   Except.error ⟨"Error", "addStyleTag failed"⟩,
   Except.error ⟨"Error", "waitForTimeout failed"⟩⟩

/-- An environment where every browser operation succeeds. -/
def envOk : RenderEnv :=
  { launch := Except.ok 7
    newContext := Except.ok ()
    newPage := Except.ok ()
    setContent := Except.ok ()
    assetsEnv := assetsEnvOk
    wait := Except.ok ()
    clip := Except.ok (some (some ⟨10, 20, 30, 40⟩))
    screenshot := Except.ok [9, 8, 7]
    version := Except.ok "HeadlessChrome/135.0"
    codec := codecFailRead
    renderedAt := "2026-01-01T00:00:00.000Z"
    screenshotId := "id-123"
    renderingTime := 42 }

/-- Environment whose selector wait times out. -/
def envTimeout : RenderEnv :=
  { envOk with wait := Except.error ⟨"TimeoutError", "Timeout 5000ms exceeded"⟩ }

/-- Environment whose screenshot capture throws a generic error. -/
def envShotErr : RenderEnv :=
  { envOk with screenshot := Except.error ⟨"Error", "Protocol error"⟩ }

/-- Environment where page creation crashes mid-render. -/
def envPageCrash : RenderEnv :=
  { envOk with newPage := Except.error ⟨"Error", "Page crashed"⟩ }

/-- Environment where the browser fails to launch. -/
def envLaunchFail : RenderEnv :=
  { envOk with launch := Except.error ⟨"Error", "Failed to launch browser"⟩ }

/-- Environment whose clip-selector lookup finds no element. -/
def envClipMiss : RenderEnv := { envOk with clip := Except.ok none }

/-- A plain well-formed request body. -/
def bodyEx : ReqBody :=
  { html := some "<div>Hello</div>"
    css := none
    javascript := none
    viewport := some ⟨[("width", JsVal.num 400), ("height", JsVal.num 200),
      ("deviceScaleFactor", JsVal.num 2)]⟩
    waitForSelector := some "#x"
    clipSelector := none
    assets := none
    fonts := none
    responseFormat := none
    format := none
    quality := none }

/-- The render parameters the route builds from bodyEx. -/
def pEx : RenderParams := routeParams bodyEx

/-- A body whose clip selector matches nothing. -/
def bodyClipMiss : ReqBody :=
  { bodyEx with clipSelector := some "#missing", waitForSelector := none }

/-- A body whose viewport carries deviceScaleFactor 0 (falsy). -/
def bodyDsf0 : ReqBody :=
  { bodyEx with
    viewport := some ⟨[("width", JsVal.num 100), ("height", JsVal.num 100),
      ("deviceScaleFactor", JsVal.num 0)]⟩
    waitForSelector := none }

/-- A body whose viewport omits deviceScaleFactor entirely. -/
def bodyNoDsf : ReqBody :=
  { bodyEx with
    viewport := some ⟨[("width", JsVal.num 800), ("height", JsVal.num 600)]⟩
    waitForSelector := none }

/-- A body whose html is benign prose that happens to contain a scanned
substring. -/
def bodyBenignMatch : ReqBody :=
  { bodyEx with
    html := some "Our new electron microscope arrived today"
    waitForSelector := none }

/-- A body whose viewport width is out of range. -/
def bodyBadWidth : ReqBody :=
  { bodyEx with
    viewport := some ⟨[("width", JsVal.num 0), ("height", JsVal.num 100)]⟩ }

/-- A concrete metadata record. -/
def mdEx : Metadata :=
  ⟨"2026-01-01T00:00:00.000Z",
   ⟨[("width", JsVal.num 400), ("height", JsVal.num 200)]⟩,
   "HeadlessChrome/135.0", 42, "id-123"⟩

/-- A concrete font entry. -/
def fontEx : Font := ⟨"MyFont", "AAAA", none, none⟩

/-- The bodyEx request asking for the JSON response envelope. -/
def bodyJson : ReqBody := { bodyEx with responseFormat := some "json" }

/-- The successful render result the fixtures produce for bodyEx (the
codec's decode fails, so the embed step falls back to the raw screenshot
bytes). -/
def rEx : RenderSuccess :=
  ⟨[9, 8, 7],
   ⟨"2026-01-01T00:00:00.000Z",
    ⟨[("width", JsVal.num 400), ("height", JsVal.num 200),
      ("deviceScaleFactor", JsVal.num 2)]⟩,
    "HeadlessChrome/135.0", 42, "id-123"⟩,
   "image/png"⟩

/-! Helper lemmas about the renderer body. -/

/-- The asset injector always resolves: its outer catch swallows every
internal error. -/
lemma addAssetsToPage_ok (a : Option (List (String × String)))
    (f : Option (List Font)) (e : AssetsEnv) :
    addAssetsToPage a f e = Except.ok () := by
  unfold addAssetsToPage
  split <;> rfl

/-- Structural facts about the renderHTML try-block: a created page implies
a created context, the creation events mirror the creation flags, and the
browser handle is never closed inside the body. -/
lemma renderBody_flags (p : RenderParams) (env : RenderEnv) :
    ((renderBody p env).pageCreated = true → (renderBody p env).ctxCreated = true) ∧
    (Event.pageCreated ∈ (renderBody p env).events →
      (renderBody p env).pageCreated = true) ∧
    ((∃ c, Event.contextCreated c ∈ (renderBody p env).events) →
      (renderBody p env).ctxCreated = true) ∧
    Event.browserClosed ∉ (renderBody p env).events := by
  unfold renderBody captureFinish
  repeat' split
  all_goals simp_all

/-- The finally teardown never closes the shared browser handle. -/
lemma cleanupEvents_no_browser (a b : Bool) :
    Event.browserClosed ∉ cleanupEvents a b := by
  cases a <;> cases b <;> simp [cleanupEvents]

/-- The finally teardown closes a created context. -/
lemma cleanupEvents_ctx_mem (a : Bool) :
    Event.contextClosed ∈ cleanupEvents a true := by
  cases a <;> simp [cleanupEvents]

/-- Claim C1: for every render request — whatever the outcome of every
browser operation — the page and context that were created are closed in the
finally teardown, page first then context, before the call returns, and the
shared browser handle is never closed as part of request handling. -/
theorem c1_resource_cleanup (p : RenderParams) (env : RenderEnv) (st : Option Browser) :
    Event.browserClosed ∉ (renderHTML p env st).events ∧
    Event.browserClosed ∉ (renderHTML p env st).cleanup ∧
    (Event.pageCreated ∈ (renderHTML p env st).events →
      (renderHTML p env st).cleanup = [Event.pageClosed, Event.contextClosed]) ∧
    ((∃ c, Event.contextCreated c ∈ (renderHTML p env st).events) →
      Event.contextClosed ∈ (renderHTML p env st).cleanup) := by
  have hbody := renderBody_flags p env
  unfold renderHTML
  rcases hgb : getBrowser st env.launch with ⟨res, st'⟩
  rcases res with e | b
  · simp
  · simp only []
    refine ⟨hbody.2.2.2, cleanupEvents_no_browser _ _, ?_, ?_⟩
    · intro hmem
      have hp := hbody.2.1 hmem
      have hc := hbody.1 hp
      rw [hp, hc]
      rfl
    · intro hex
      have hc := hbody.2.2.1 hex
      rw [hc]
      exact cleanupEvents_ctx_mem _

/-- Witness for C1 at a concrete all-success request: the page was created,
the teardown is exactly page-close then context-close, and the browser is
never closed. -/
theorem c1_resource_cleanup_witness :
    Event.pageCreated ∈ (renderHTML pEx envOk none).events ∧
    (renderHTML pEx envOk none).cleanup = [Event.pageClosed, Event.contextClosed] ∧
    Event.browserClosed ∉ (renderHTML pEx envOk none).events := by
  have h := c1_resource_cleanup pEx envOk none
  have hmem : Event.pageCreated ∈ (renderHTML pEx envOk none).events := by decide
  exact ⟨hmem, h.2.2.1 hmem, h.1⟩

/-- Counterexample to claim C2 as stated: with a clip selector that resolves
to no element the request does succeed, but the capture that runs is not a
full-page capture — the options keep fullPage = false (a viewport capture),
whereas the capture used when no clip selector is supplied has
fullPage = true. -/
theorem c2_counterexample :
    isOkE (renderHTML (routeParams bodyClipMiss) envClipMiss none).result = true ∧
    Event.screenshotTaken
        (computeScreenshotOptions "png" 90 (some "#missing") (Except.ok none)) ∈
      (renderHTML (routeParams bodyClipMiss) envClipMiss none).events ∧
    (computeScreenshotOptions "png" 90 (some "#missing") (Except.ok none)).fullPage
      = some false ∧
    (computeScreenshotOptions "png" 90 none (Except.ok none)).fullPage = some true := by
  refine ⟨by decide, by decide, by decide, by decide⟩

/-- Claim C2, amended: for every render request whose clipSelector does not
resolve (element not found, element without a bounding box, or a lookup
error), the request still succeeds and the capture silently proceeds
un-clipped with the already-assembled options — fullPage stays false, a
viewport capture rather than a full-page capture. -/
theorem c2_clip_fallback_amended (p : RenderParams) (env : RenderEnv)
    (st : Option Browser) (sel : String) (b : Browser) (buf : List Nat) (ver : String)
    (hsel : p.clipSelector = some sel)
    (hmiss : ∀ bb : BoundingBox, env.clip ≠ Except.ok (some (some bb)))
    (hgb : getBrowser st env.launch = (Except.ok b, some b))
    (hc : env.newContext = Except.ok ())
    (hp : env.newPage = Except.ok ())
    (hs : env.setContent = Except.ok ())
    (hw : env.wait = Except.ok ())
    (hshot : env.screenshot = Except.ok buf)
    (hv : env.version = Except.ok ver) :
    isOkE (renderHTML p env st).result = true ∧
    (computeScreenshotOptions p.format p.quality p.clipSelector env.clip).clip = none ∧
    (computeScreenshotOptions p.format p.quality p.clipSelector env.clip).fullPage
      = some false ∧
    Event.screenshotTaken
        (computeScreenshotOptions p.format p.quality p.clipSelector env.clip) ∈
      (renderHTML p env st).events := by
  have hopts : computeScreenshotOptions p.format p.quality p.clipSelector env.clip =
      { type := if p.format = "jpeg" then "jpeg" else "png"
        fullPage := some false
        omitBackground := false
        quality := if p.format = "jpeg" then some p.quality else none
        clip := none } := by
    unfold computeScreenshotOptions
    rw [hsel]
    rcases henv : env.clip with e | o
    · simp
    · rcases o with _ | oo
      · simp
      · rcases oo with _ | bb
        · simp
        · exact absurd henv (hmiss bb)
  have hrender : renderHTML p env st =
      ⟨(renderBody p env).res, some b, (renderBody p env).events,
        cleanupEvents (renderBody p env).pageCreated (renderBody p env).ctxCreated⟩ := by
    unfold renderHTML
    rw [hgb]
  refine ⟨?_, by rw [hopts], by rw [hopts], ?_⟩ <;>
    rw [hrender] <;>
    unfold renderBody captureFinish <;>
    rw [hc, hp, hs] <;>
    simp only [addAssetsToPage_ok, ite_self] <;>
    rcases p.waitForSelector with _ | w <;>
    simp [hw, hshot, hv, isOkE]

/-- Witness for the amended C2 at a concrete clip-miss request. -/
theorem c2_clip_fallback_witness :
    isOkE (renderHTML (routeParams bodyClipMiss) envClipMiss none).result = true ∧
    (computeScreenshotOptions (routeParams bodyClipMiss).format
        (routeParams bodyClipMiss).quality (routeParams bodyClipMiss).clipSelector
        envClipMiss.clip).fullPage = some false := by
  have h := c2_clip_fallback_amended (routeParams bodyClipMiss) envClipMiss none
    "#missing" 7 [9, 8, 7] "HeadlessChrome/135.0" rfl
    (fun bb => by simp [envClipMiss, envOk]) rfl rfl rfl rfl rfl rfl rfl
  exact ⟨h.1, h.2.2.1⟩

/-- Counterexample to claim C3 as stated: a supplied viewport whose
deviceScaleFactor is the number 0 — outside (0, 5] by the code's own range
predicate — is not rejected: validation passes and the request renders with
status 200, because the falsy value skips the range check. -/
theorem c3_counterexample :
    validatePayload bodyDsf0 100 = none ∧
    isValidScale (JsVal.num 0) = false ∧
    (handleRender bodyDsf0 100 envOk none).response.statusOf = 200 := by
  refine ⟨by decide, by decide, by decide⟩

/-- Claim C3, amended: a supplied viewport is rejected with HTTP 400 before
any browser resource is touched when width or height is not a number or lies
outside (0, 5000], or when deviceScaleFactor is truthy (present and nonzero)
and is not a number or lies outside (0, 5]; with width and height in range
and deviceScaleFactor either falsy or in range, the viewport validation
passes. -/
theorem c3_viewport_validation_amended (b : ReqBody) (cl : Nat) (env : RenderEnv)
    (st : Option Browser) (v : Viewport)
    (hv : b.viewport = some v) :
    ((isValidDimension (v.get "width") = false ∨
      isValidDimension (v.get "height") = false ∨
      ((v.get "deviceScaleFactor").truthy = true ∧
        isValidScale (v.get "deviceScaleFactor") = false)) →
      ∃ m, validatePayload b cl = some ⟨m, 400⟩ ∧
        handleRender b cl env st = ⟨HttpResponse.errResp 400 m, st, [], []⟩) ∧
    (isValidDimension (v.get "width") = true →
      isValidDimension (v.get "height") = true →
      ((v.get "deviceScaleFactor").truthy = true →
        isValidScale (v.get "deviceScaleFactor") = true) →
      viewportCheck v = none) := by
  constructor
  · intro hbad
    have hvc : ∃ m, viewportCheck v = some ⟨m, 400⟩ := by
      unfold viewportCheck
      cases hw : isValidDimension (v.get "width")
      · exact ⟨"Invalid viewport width (must be between 1-5000)", by simp⟩
      · cases hh : isValidDimension (v.get "height")
        · exact ⟨"Invalid viewport height (must be between 1-5000)", by simp⟩
        · rcases hbad with h | h | ⟨ht, hs⟩
          · rw [hw] at h; cases h
          · rw [hh] at h; cases h
          · exact ⟨"Invalid deviceScaleFactor (must be between 0-5)", by simp [ht, hs]⟩
    obtain ⟨m, hm⟩ := hvc
    cases hhtml : truthyOptStr b.html
    · refine ⟨"HTML content is required", ?_, ?_⟩
      · unfold validatePayload
        simp [hhtml]
      · unfold handleRender validatePayload
        simp [hhtml]
    · refine ⟨m, ?_, ?_⟩
      · unfold validatePayload
        simp [hhtml, hv, hm]
      · unfold handleRender validatePayload
        simp [hhtml, hv, hm]
  · intro h1 h2 h3
    unfold viewportCheck
    rw [h1, h2]
    cases htr : (v.get "deviceScaleFactor").truthy
    · simp [htr]
    · simp [htr, h3 htr]

/-- Witness for the amended C3: a zero width is rejected with 400 and the
pipeline never touches the browser. -/
theorem c3_viewport_validation_witness :
    validatePayload bodyBadWidth 100
        = some ⟨"Invalid viewport width (must be between 1-5000)", 400⟩ ∧
    handleRender bodyBadWidth 100 envOk none
      = ⟨HttpResponse.errResp 400 "Invalid viewport width (must be between 1-5000)",
          none, [], []⟩ := by
  obtain ⟨m, h1, h2⟩ :=
    (c3_viewport_validation_amended bodyBadWidth 100 envOk none
      ⟨[("width", JsVal.num 0), ("height", JsVal.num 100)]⟩ rfl).1 (Or.inl (by decide))
  have hcomp : validatePayload bodyBadWidth 100
      = some ⟨"Invalid viewport width (must be between 1-5000)", 400⟩ := by decide
  have hm : m = "Invalid viewport width (must be between 1-5000)" := by
    have := h1.symm.trans hcomp
    simpa using this
  rw [hm] at h1 h2
  exact ⟨h1, h2⟩

/-- Every selector wait the try-block performs uses the fixed 5000 ms
timeout. -/
lemma renderBody_wait_timeout (p : RenderParams) (env : RenderEnv) (t : Nat) :
    Event.waitCalled t ∈ (renderBody p env).events → t = 5000 := by
  unfold renderBody captureFinish
  repeat' split
  all_goals simp_all

/-- Every selector wait a render performs uses the fixed 5000 ms timeout. -/
lemma renderHTML_wait_timeout (p : RenderParams) (env : RenderEnv)
    (st : Option Browser) (t : Nat) :
    Event.waitCalled t ∈ (renderHTML p env st).events → t = 5000 := by
  unfold renderHTML
  rcases hgb : getBrowser st env.launch with ⟨res, st'⟩
  rcases res with e | b
  · simp
  · simpa using renderBody_wait_timeout p env t

/-- Claim C4: the selector wait is bounded by the fixed 5000 ms timeout; a
render failure named TimeoutError is answered 408 with the timeout message,
every other render failure is answered 500, and 408 is produced exactly for
TimeoutError failures. -/
theorem c4_timeout_maps_to_408 (b : ReqBody) (env : RenderEnv) (st : Option Browser)
    (e : JsError)
    (hfmt : formatInvalid (b.format.getD "png") = false)
    (hq : qualityInvalid (b.format.getD "png") ((b.quality.getD 90 : ℚ)) = false)
    (herr : (renderHTML (routeParams b) env st).result = Except.error e) :
    (renderRoute b env st).response =
      (if e.name = "TimeoutError" then
        HttpResponse.errResp 408 "Operation timed out. Check selectors or simplify content."
      else HttpResponse.errResp 500 e.message) ∧
    ((renderRoute b env st).response.statusOf = 408 ↔ e.name = "TimeoutError") ∧
    (∀ t, Event.waitCalled t ∈ (renderHTML (routeParams b) env st).events → t = 5000) := by
  have hresp : (renderRoute b env st).response =
      (if e.name = "TimeoutError" then
        HttpResponse.errResp 408 "Operation timed out. Check selectors or simplify content."
      else HttpResponse.errResp 500 e.message) := by
    unfold renderRoute
    simp only [hfmt, hq, Bool.false_eq_true, if_false, herr]
    split <;> simp_all
  refine ⟨hresp, ?_, fun t => renderHTML_wait_timeout (routeParams b) env st t⟩
  rw [hresp]
  by_cases hn : e.name = "TimeoutError" <;> simp [hn, HttpResponse.statusOf]

/-- Witness for C4: a TimeoutError wait failure is answered 408 with the
timeout message, while a generic capture failure is answered 500 and never
408. -/
theorem c4_timeout_maps_to_408_witness :
    (renderRoute bodyEx envTimeout none).response
      = HttpResponse.errResp 408 "Operation timed out. Check selectors or simplify content." ∧
    (renderRoute bodyEx envShotErr none).response
      = HttpResponse.errResp 500 "Protocol error" ∧
    ((renderRoute bodyEx envShotErr none).response.statusOf = 408 → False) := by
  have h1 := c4_timeout_maps_to_408 bodyEx envTimeout none
    ⟨"TimeoutError", "Timeout 5000ms exceeded"⟩ (by decide) (by decide) rfl
  have h2 := c4_timeout_maps_to_408 bodyEx envShotErr none
    ⟨"Error", "Protocol error"⟩ (by decide) (by decide) rfl
  refine ⟨?_, ?_, ?_⟩
  · rw [h1.1]; simp
  · rw [h2.1]; simp
  · intro hc
    exact absurd (h2.2.1.mp hc) (by decide)

/-- Claim C5: metadata embedding re-encodes PNG output with the
JSON-serialized metadata as a custom text field; any decode or encode error
falls back to the original bytes, and for jpeg or with embedding disabled
the bytes pass through unchanged. -/
theorem c5_embed_metadata (em : Bool) (fmt : String) (codec : PngCodec)
    (buf : List Nat) (md : Metadata) :
    (fmt = "jpeg" → selectFinalBuffer em fmt codec buf md = buf) ∧
    (em = false → selectFinalBuffer em fmt codec buf md = buf) ∧
    (∀ img out, codec.read buf = Except.ok img →
      codec.write { img with text := [("metadata", metadataJson md)] } = Except.ok out →
      selectFinalBuffer true "png" codec buf md = out) ∧
    (codec.read buf = Except.error () →
      selectFinalBuffer true "png" codec buf md = buf) ∧
    (∀ img, codec.read buf = Except.ok img →
      codec.write { img with text := [("metadata", metadataJson md)] } = Except.error () →
      selectFinalBuffer true "png" codec buf md = buf) := by
  refine ⟨?_, ?_, ?_, ?_, ?_⟩
  · intro h
    subst h
    simp [selectFinalBuffer]
  · intro h
    subst h
    simp [selectFinalBuffer]
  · intro img out hr hw
    simp [selectFinalBuffer, embedMetadataInImage, hr, hw]
  · intro hr
    simp [selectFinalBuffer, embedMetadataInImage, hr]
  · intro img hr hw
    simp [selectFinalBuffer, embedMetadataInImage, hr, hw]

/-- Witness for C5: the embed succeeds through a working codec, passes
through for jpeg and when disabled, and falls back to the original bytes on
a decode failure. -/
theorem c5_embed_metadata_witness :
    selectFinalBuffer true "png" codecOk [5, 6] mdEx = [0, 5, 6] ∧
    selectFinalBuffer true "jpeg" codecOk [5, 6] mdEx = [5, 6] ∧
    selectFinalBuffer false "png" codecOk [5, 6] mdEx = [5, 6] ∧
    selectFinalBuffer true "png" codecFailRead [5, 6] mdEx = [5, 6] := by
  refine ⟨?_, ?_, ?_, ?_⟩
  · exact (c5_embed_metadata true "png" codecOk [5, 6] mdEx).2.2.1 ⟨[5, 6], []⟩ [0, 5, 6] rfl rfl
  · exact (c5_embed_metadata true "jpeg" codecOk [5, 6] mdEx).1 rfl
  · exact (c5_embed_metadata false "png" codecOk [5, 6] mdEx).2.1 rfl
  · exact (c5_embed_metadata true "png" codecFailRead [5, 6] mdEx).2.2.2.1 rfl

/-- Claim C6: asset and font injection is best-effort — addAssetsToPage
swallows every internal error, so a render's outcome does not depend on the
asset-injection environment at all, and an intercepted request whose
trailing path segment misses the assets map is passed through unmodified. -/
theorem c6_assets_best_effort :
    (∀ (a : Option (List (String × String))) (f : Option (List Font)) (e : AssetsEnv),
      addAssetsToPage a f e = Except.ok ()) ∧
    (∀ (p : RenderParams) (env : RenderEnv) (st : Option Browser) (aenv : AssetsEnv),
      renderHTML p { env with assetsEnv := aenv } st = renderHTML p env st) ∧
    (∀ (assets : List (String × String)) (fulfillOk : Bool) (url : String),
      assets.lookup (lastSplitSegment '/' url) = none →
      assetRouteHandler assets fulfillOk url = RouteAction.continued) := by
  refine ⟨addAssetsToPage_ok, ?_, ?_⟩
  · intro p env st aenv
    unfold renderHTML renderBody captureFinish
    simp only [addAssetsToPage_ok]
  · intro assets fulfillOk url h
    simp [assetRouteHandler, h]

/-- Witness for C6: injection with every page operation throwing still
resolves, and a URL whose trailing segment is not an asset key is passed
through. -/
theorem c6_assets_best_effort_witness :
    addAssetsToPage (some [("a.png", "aGk=")]) (some [fontEx]) assetsEnvBad
        = Except.ok () ∧
    assetRouteHandler [("logo.png", "aGk=")] true "http://localhost/img/other.png"
      = RouteAction.continued := by
  refine ⟨c6_assets_best_effort.1 _ _ _, c6_assets_best_effort.2.2 _ true _ (by decide)⟩

/-- Counterexample to claim C7 as stated: after a page crash mid-render the
error does propagate, but the browser singleton is not left absent — it
still holds the previously launched handle, and the next request's
getBrowser returns that cached handle without attempting a launch (the
environment's launch would fail here, yet the handle is served). -/
theorem c7_counterexample :
    (renderHTML pEx envPageCrash none).result = Except.error ⟨"Error", "Page crashed"⟩ ∧
    (renderHTML pEx envPageCrash none).browserAfter = some 7 ∧
    getBrowser (renderHTML pEx envPageCrash none).browserAfter envLaunchFail.launch
      = (Except.ok 7, some 7) := by
  exact ⟨rfl, rfl, rfl⟩

/-- Claim C7, amended: when the browser fails to launch the error propagates
(reaching the boundary as HTTP 500 for non-timeout errors) and the singleton
stays absent, so the next request attempts the launch again; when a fatal
error strikes mid-render after a handle exists, the error still reaches the
boundary as HTTP 500 but the singleton keeps the existing handle, which the
next request reuses. -/
theorem c7_browser_singleton_amended (p : RenderParams) (env : RenderEnv)
    (e : JsError) (b : Browser) :
    (env.launch = Except.error e →
      (renderHTML p env none).result = Except.error e ∧
      (renderHTML p env none).browserAfter = none ∧
      getBrowser (renderHTML p env none).browserAfter env.launch
        = (Except.error e, none)) ∧
    ((renderHTML p env (some b)).browserAfter = some b) ∧
    (∀ (bb : ReqBody) (st : Option Browser),
      formatInvalid (bb.format.getD "png") = false →
      qualityInvalid (bb.format.getD "png") ((bb.quality.getD 90 : ℚ)) = false →
      (renderHTML (routeParams bb) env st).result = Except.error e →
      e.name ≠ "TimeoutError" →
      (renderRoute bb env st).response = HttpResponse.errResp 500 e.message) := by
  refine ⟨?_, ?_, ?_⟩
  · intro hl
    unfold renderHTML getBrowser
    simp [hl]
  · unfold renderHTML getBrowser
    simp
  · intro bb st hfmt hq herr hne
    unfold renderRoute
    simp only [hfmt, hq, Bool.false_eq_true, if_false, herr]
    simp [hne]

/-- Witness for the amended C7: a launch failure leaves the singleton
absent and is answered 500; a crash with a cached handle keeps the handle. -/
theorem c7_browser_singleton_witness :
    (renderHTML pEx envLaunchFail none).browserAfter = none ∧
    (renderRoute bodyEx envLaunchFail none).response
      = HttpResponse.errResp 500 "Failed to launch browser" ∧
    (renderHTML pEx envPageCrash (some 3)).browserAfter = some 3 := by
  have h := c7_browser_singleton_amended pEx envLaunchFail
    ⟨"Error", "Failed to launch browser"⟩ 3
  have h2 := c7_browser_singleton_amended (routeParams bodyEx) envLaunchFail
    ⟨"Error", "Failed to launch browser"⟩ 3
  have h3 := c7_browser_singleton_amended pEx envPageCrash
    ⟨"Error", "Page crashed"⟩ 3
  refine ⟨(h.1 rfl).2.1, ?_, h3.2.1⟩
  exact h2.2.2 bodyEx none (by decide) (by decide) rfl (by decide)

/-- A successful render's content type is the PNG or JPEG MIME type. -/
lemma renderBody_contentType (p : RenderParams) (env : RenderEnv) (r : RenderSuccess) :
    (renderBody p env).res = Except.ok r →
    r.contentType = "image/png" ∨ r.contentType = "image/jpeg" := by
  unfold renderBody captureFinish
  repeat' split
  all_goals intro h
  all_goals simp_all
  all_goals subst h
  all_goals simp

/-- A successful render's content type is the PNG or JPEG MIME type. -/
lemma renderHTML_contentType (p : RenderParams) (env : RenderEnv) (st : Option Browser)
    (r : RenderSuccess) :
    (renderHTML p env st).result = Except.ok r →
    r.contentType = "image/png" ∨ r.contentType = "image/jpeg" := by
  unfold renderHTML
  rcases hgb : getBrowser st env.launch with ⟨res, st'⟩
  rcases res with e | b
  · intro h
    cases h
  · exact renderBody_contentType p env r

/-- Claim C8: after a successful render, a non-json responseFormat answers
with the raw image bytes under the render's content type (image/png or
image/jpeg) and mirrors every metadata field into the response headers —
the four fixed X- headers plus one X-Viewport- header per viewport field,
matching the documented names up to HTTP header-name case; responseFormat
json answers with the base64 image, content type and metadata envelope. -/
theorem c8_response_formats (b : ReqBody) (cl : Nat) (env : RenderEnv)
    (st : Option Browser) (r : RenderSuccess) (wv hv dv : JsVal)
    (hval : validatePayload b cl = none)
    (hfmt : formatInvalid (b.format.getD "png") = false)
    (hq : qualityInvalid (b.format.getD "png") ((b.quality.getD 90 : ℚ)) = false)
    (hres : (renderHTML (routeParams b) env st).result = Except.ok r)
    (hvp : r.metadata.viewport
      = ⟨[("width", wv), ("height", hv), ("deviceScaleFactor", dv)]⟩) :
    (b.responseFormat.getD "image" ≠ "json" →
      (handleRender b cl env st).response = HttpResponse.imageResp r.contentType
        [("X-Screenshot-ID", JsVal.str r.metadata.screenshotId),
         ("X-Rendering-Time", JsVal.num (r.metadata.renderingTime : ℚ)),
         ("X-Browser-Version", JsVal.str r.metadata.browserVersion),
         ("X-Rendered-At", JsVal.str r.metadata.renderedAt),
         ("X-Viewport-Width", wv),
         ("X-Viewport-Height", hv),
         ("X-Viewport-DeviceScaleFactor", dv)] r.imageBuffer) ∧
    (b.responseFormat.getD "image" = "json" →
      (handleRender b cl env st).response
        = HttpResponse.jsonOk (base64Encode r.imageBuffer) r.contentType r.metadata) ∧
    ((imageHeaders r.metadata).map (fun x => lowerName x.1)
      = ["x-screenshot-id", "x-rendering-time", "x-browser-version", "x-rendered-at",
         "x-viewport-width", "x-viewport-height", "x-viewport-devicescalefactor"]) ∧
    (r.contentType = "image/png" ∨ r.contentType = "image/jpeg") := by
  have hheaders : imageHeaders r.metadata =
      [("X-Screenshot-ID", JsVal.str r.metadata.screenshotId),
       ("X-Rendering-Time", JsVal.num (r.metadata.renderingTime : ℚ)),
       ("X-Browser-Version", JsVal.str r.metadata.browserVersion),
       ("X-Rendered-At", JsVal.str r.metadata.renderedAt),
       ("X-Viewport-Width", wv),
       ("X-Viewport-Height", hv),
       ("X-Viewport-DeviceScaleFactor", dv)] := by
    have h1 : "X-Viewport-" ++ capitalizeFirst "width" = "X-Viewport-Width" := by decide
    have h2 : "X-Viewport-" ++ capitalizeFirst "height" = "X-Viewport-Height" := by decide
    have h3 : "X-Viewport-" ++ capitalizeFirst "deviceScaleFactor"
        = "X-Viewport-DeviceScaleFactor" := by decide
    simp [imageHeaders, hvp, h1, h2, h3]
  have hroute : handleRender b cl env st = renderRoute b env st := by
    unfold handleRender
    rw [hval]
  refine ⟨?_, ?_, ?_, renderHTML_contentType (routeParams b) env st r hres⟩
  · intro hnj
    rw [hroute]
    unfold renderRoute
    simp only [hfmt, hq, Bool.false_eq_true, if_false, hres]
    simp [hnj, hheaders]
  · intro hj
    rw [hroute]
    unfold renderRoute
    simp only [hfmt, hq, Bool.false_eq_true, if_false, hres]
    simp [hj]
  · rw [hheaders]
    simp only [List.map]
    decide

/-- Witness for C8 at a concrete successful render, in both response
shapes. -/
theorem c8_response_formats_witness :
    (handleRender bodyEx 100 envOk none).response = HttpResponse.imageResp "image/png"
      [("X-Screenshot-ID", JsVal.str "id-123"),
       ("X-Rendering-Time", JsVal.num 42),
       ("X-Browser-Version", JsVal.str "HeadlessChrome/135.0"),
       ("X-Rendered-At", JsVal.str "2026-01-01T00:00:00.000Z"),
       ("X-Viewport-Width", JsVal.num 400),
       ("X-Viewport-Height", JsVal.num 200),
       ("X-Viewport-DeviceScaleFactor", JsVal.num 2)] [9, 8, 7] ∧
    (handleRender bodyJson 100 envOk none).response
      = HttpResponse.jsonOk (base64Encode [9, 8, 7]) "image/png" rEx.metadata := by
  have h1 := c8_response_formats bodyEx 100 envOk none rEx
    (JsVal.num 400) (JsVal.num 200) (JsVal.num 2)
    (by decide) (by decide) (by decide) rfl rfl
  have h2 := c8_response_formats bodyJson 100 envOk none rEx
    (JsVal.num 400) (JsVal.num 200) (JsVal.num 2)
    (by decide) (by decide) (by decide) rfl rfl
  exact ⟨h1.1 (by decide), h2.2.1 rfl⟩

/-- Every context-created event of the try-block carries exactly the
options contextOptionsOf builds from the request parameters. -/
lemma renderBody_ctxOpts (p : RenderParams) (env : RenderEnv) (c : ContextOptions) :
    Event.contextCreated c ∈ (renderBody p env).events → c = contextOptionsOf p := by
  unfold renderBody captureFinish
  repeat' split
  all_goals intro h
  all_goals simp_all

/-- Every context-created event of a render carries exactly the options
contextOptionsOf builds from the request parameters. -/
lemma renderHTML_ctxOpts (p : RenderParams) (env : RenderEnv) (st : Option Browser)
    (c : ContextOptions) :
    Event.contextCreated c ∈ (renderHTML p env st).events → c = contextOptionsOf p := by
  unfold renderHTML
  rcases hgb : getBrowser st env.launch with ⟨res, st'⟩
  rcases res with e | b
  · simp
  · simpa using renderBody_ctxOpts p env c

/-- The pipeline's browser events are either empty (a guard rejected the
request) or exactly the render's events. -/
lemma handleRender_events (b : ReqBody) (cl : Nat) (env : RenderEnv)
    (st : Option Browser) :
    (handleRender b cl env st).events = [] ∨
      (handleRender b cl env st).events = (renderHTML (routeParams b) env st).events := by
  unfold handleRender
  split
  · simp
  · by_cases hf : formatInvalid (b.format.getD "png") = true
    · simp [renderRoute, hf]
    · by_cases hqq : qualityInvalid (b.format.getD "png") ((b.quality.getD 90 : ℚ)) = true
      · simp [renderRoute, hf, hqq]
      · rcases hres : (renderHTML (routeParams b) env st).result with e | r
        · simp only [renderRoute, hf, hqq, hres, Bool.false_eq_true, if_false]
          split <;> simp
        · simp only [renderRoute, hf, hqq, hres, Bool.false_eq_true, if_false]
          split <;> simp

/-- Claim C9: with a supplied viewport whose deviceScaleFactor is falsy
(absent, 0, or otherwise untruthy), validation applies no range check to it
and accepts the request when everything else is in order, and every browser
context the renderer creates for such a request uses deviceScaleFactor 1. -/
theorem c9_dsf_falsy_defaults_to_one (b : ReqBody) (cl : Nat) (env : RenderEnv)
    (st : Option Browser) (v : Viewport)
    (hv : b.viewport = some v)
    (hdsf : (v.get "deviceScaleFactor").truthy = false) :
    (isValidDimension (v.get "width") = true →
      isValidDimension (v.get "height") = true →
      viewportCheck v = none) ∧
    (truthyOptStr b.html = true →
      isValidDimension (v.get "width") = true →
      isValidDimension (v.get "height") = true →
      maliciousDetected (combinedContent b).toList = false →
      cl ≤ 10485760 →
      validatePayload b cl = none) ∧
    (∀ c, Event.contextCreated c ∈ (handleRender b cl env st).events →
      c.deviceScaleFactor = JsVal.num 1) := by
  have hvc : isValidDimension (v.get "width") = true →
      isValidDimension (v.get "height") = true → viewportCheck v = none := by
    intro h1 h2
    unfold viewportCheck
    rw [h1, h2]
    simp [hdsf]
  refine ⟨hvc, ?_, ?_⟩
  · intro hhtml h1 h2 hmal hcl
    have hmal2 : maliciousDetected (combinedContent b).data = false := hmal
    unfold validatePayload
    simp [hhtml, hv, hvc h1 h2, hmal2, Nat.not_lt.mpr hcl]
  · intro c hc
    rcases handleRender_events b cl env st with h | h
    · rw [h] at hc
      cases hc
    · rw [h] at hc
      have hco := renderHTML_ctxOpts (routeParams b) env st c hc
      rw [hco]
      unfold contextOptionsOf jsOr routeParams
      simp [hv, hdsf]

/-- Witness for C9: a viewport without deviceScaleFactor passes validation
and the context is created with deviceScaleFactor 1. -/
theorem c9_dsf_falsy_witness :
    validatePayload bodyNoDsf 100 = none ∧
    (contextOptionsOf (routeParams bodyNoDsf)).deviceScaleFactor = JsVal.num 1 := by
  have h := c9_dsf_falsy_defaults_to_one bodyNoDsf 100 envOk none
    ⟨[("width", JsVal.num 800), ("height", JsVal.num 600)]⟩ rfl (by decide)
  refine ⟨h.2.1 (by decide) (by decide) (by decide) (by decide) (by decide), ?_⟩
  have hmem : Event.contextCreated (contextOptionsOf (routeParams bodyNoDsf))
      ∈ (handleRender bodyNoDsf 100 envOk none).events := by decide
  exact h.2.2 _ hmem

/-- Every rejection of the viewport block carries HTTP status 400. -/
lemma viewportCheck_status (v : Viewport) (e : ApiError) :
    viewportCheck v = some e → e.status = 400 := by
  unfold viewportCheck
  repeat' split
  all_goals intro h
  all_goals try cases h
  all_goals rfl

/-- Claim C10: content matching any of the fixed malicious patterns is
always rejected with HTTP 400 before any rendering occurs, and — whenever
the earlier guards (required html, viewport bounds) pass — with the message
"Potentially malicious code detected", even for benign text that merely
contains such a substring. -/
theorem c10_malicious_rejection (b : ReqBody) (cl : Nat) (env : RenderEnv)
    (st : Option Browser)
    (hmal : maliciousDetected (combinedContent b).toList = true) :
    (∃ m, validatePayload b cl = some ⟨m, 400⟩) ∧
    (truthyOptStr b.html = true →
      (match b.viewport with | some v => viewportCheck v | none => none) = none →
      validatePayload b cl = some ⟨"Potentially malicious code detected", 400⟩ ∧
      handleRender b cl env st
        = ⟨HttpResponse.errResp 400 "Potentially malicious code detected", st, [], []⟩) := by
  have hmal2 : maliciousDetected (combinedContent b).data = true := hmal
  constructor
  · cases hhtml : truthyOptStr b.html
    · exact ⟨"HTML content is required", by unfold validatePayload; simp [hhtml]⟩
    · rcases hb : b.viewport with _ | v
      · refine ⟨"Potentially malicious code detected", ?_⟩
        unfold validatePayload
        simp [hhtml, hb, hmal2]
      · rcases hvc : viewportCheck v with _ | e
        · refine ⟨"Potentially malicious code detected", ?_⟩
          unfold validatePayload
          simp [hhtml, hb, hvc, hmal2]
        · rcases e with ⟨m, s⟩
          have hs := viewportCheck_status v ⟨m, s⟩ hvc
          simp only at hs
          subst hs
          refine ⟨m, ?_⟩
          unfold validatePayload
          simp [hhtml, hb, hvc]
  · intro hhtml hvp
    have hval : validatePayload b cl
        = some ⟨"Potentially malicious code detected", 400⟩ := by
      unfold validatePayload
      simp [hhtml, hvp, hmal2]
    refine ⟨hval, ?_⟩
    unfold handleRender
    rw [hval]

/-- Witness for C10: benign prose containing the substring electron is
rejected 400 with the malicious-code message and no browser activity. -/
theorem c10_malicious_rejection_witness :
    validatePayload bodyBenignMatch 100
        = some ⟨"Potentially malicious code detected", 400⟩ ∧
    handleRender bodyBenignMatch 100 envOk none
      = ⟨HttpResponse.errResp 400 "Potentially malicious code detected",
          none, [], []⟩ := by
  exact (c10_malicious_rejection bodyBenignMatch 100 envOk none (by decide)).2
    (by decide) (by decide)

end Html2Img
